import Mathlib

/-!
# lib_webview: embedding of the three platform backends

A shallow embedding of `webview_linux.cpp`, `webview_windows_edge_chromium.cpp`
and `webview_windows_edge_html.cpp`.  Every function of the sources becomes a
pure function that returns its result together with the ordered list of native
API calls it made and host callbacks it invoked (`Step`).  The native layer is
data: what each native call answers and which completion callbacks the message
loop delivers.
-/

namespace Webview

/-! ## Native scalar types -/

abbrev HRESULT := Int

def S_OK : HRESULT := 0

def S_FALSE : HRESULT := 1

def E_FAIL : HRESULT := -2147467259

/-- An opaque window handle. -/
abbrev HWND := Nat

/-- A wide string: the sequence of UTF-16 code units before the terminator. -/
abbrev WString := List Nat

inductive COREWEBVIEW2_PERMISSION_KIND
  | UNKNOWN_PERMISSION
  | MICROPHONE
  | CAMERA
  | GEOLOCATION
  | NOTIFICATIONS
  | OTHER_SENSORS
  | CLIPBOARD_READ
  deriving DecidableEq, Repr

inductive COREWEBVIEW2_PERMISSION_STATE
  | DEFAULT
  | ALLOW
  | DENY
  deriving DecidableEq, Repr

/-- The exception thrown by calling an empty `std::function`. -/
inductive Exception
  | bad_function_call
  deriving DecidableEq, Repr

/-- Modelled from the spec: the `Config` value object, whose header is not among
the sources.  An absent (empty) `std::function` is `none`. -/
structure Config where
  window : HWND
  userDataPath : String
  messageHandler : Option (String → Unit)
  navigationStartHandler : Option (String → Bool)
  navigationDoneHandler : Option (Bool → Unit)

/-! ## Text conversion (`MultiByteToWideChar` / `WideCharToMultiByte`, CP_UTF8) -/

/-- UTF-16 code units of one Unicode scalar value. -/
def utf16Units (c : Char) : List Nat :=
  if c.toNat < 0x10000 then [c.toNat]
  else [0xD800 + (c.toNat - 0x10000) / 0x400, 0xDC00 + (c.toNat - 0x10000) % 0x400]

def isHighSurrogate (u : Nat) : Bool := 0xD800 ≤ u && u < 0xDC00

def isLowSurrogate (u : Nat) : Bool := 0xDC00 ≤ u && u < 0xE000

/-- One code unit on its own: an unpaired surrogate becomes U+FFFD. -/
def loneUnit (u : Nat) : Char :=
  if isHighSurrogate u || isLowSurrogate u then Char.ofNat 0xFFFD else Char.ofNat u

/-- Decoding of UTF-16 code units; `pending` is a high surrogate waiting for its pair. -/
def decodeUtf16 : Option Nat → List Nat → List Char
  | none, [] => []
  | some p, [] => [loneUnit p]
  | none, u :: rest =>
    if isHighSurrogate u then decodeUtf16 (some u) rest
    else loneUnit u :: decodeUtf16 none rest
  | some p, u :: rest =>
    if isLowSurrogate u then
      Char.ofNat (0x10000 + (p - 0xD800) * 0x400 + (u - 0xDC00)) :: decodeUtf16 none rest
    else if isHighSurrogate u then loneUnit p :: decodeUtf16 (some u) rest
    else loneUnit p :: loneUnit u :: decodeUtf16 none rest

def ToWide (string : String) : WString :=
  string.toList.flatMap utf16Units

def FromWide (string : WString) : String :=
  String.mk (decodeUtf16 none string)

/-- The member `c_str()` handed to a native function: a pointer to NUL-terminated
text, of which the callee reads the code units before the first NUL. -/
def c_str (wide : WString) : WString :=
  wide.takeWhile fun u => decide (u ≠ 0)

/-! ## The trace of native calls and callback invocations -/

/-- A call into the native layer (COM, WebView2, WinRT). -/
inductive Api
  | CoInitializeEx
  | CoUninitialize_
  | init_apartment
  | GetAvailableCoreWebView2BrowserVersionString
  | WebViewControlProcess (created : Bool)
  | CreateEvent
  | CloseHandle
  | SetEvent
  | CoWaitForMultipleHandles
  | CreateCoreWebView2EnvironmentWithOptions (userDataFolder : Option WString)
  | CreateCoreWebView2Controller (window : HWND)
  | get_CoreWebView2 (controller : Nat)
  | get_Settings (webview : Nat)
  | put_AreDefaultContextMenusEnabled (value : Bool)
  | put_AreDevToolsEnabled (value : Bool)
  | put_IsStatusBarEnabled (value : Bool)
  | controller_AddRef (controller : Nat)
  | webview_AddRef (webview : Nat)
  | controller_Release (controller : Nat)
  | webview_Release (webview : Nat)
  | add_WebMessageReceived
  | add_PermissionRequested
  | add_NavigationStarting
  | add_NavigationCompleted
  | TryGetWebMessageAsString
  | PostWebMessageAsString (message : WString)
  | CoTaskMemFree
  | get_PermissionKind
  | put_State (state : COREWEBVIEW2_PERMISSION_STATE)
  | get_Uri
  | put_Cancel (value : Bool)
  | get_IsSuccess
  | AddScriptToExecuteOnDocumentCreated (js : WString)
  | CreateWebViewControlAsync (window : HWND)
  | Status
  | Completed
  | GetResults
  | IsScriptNotifyAllowed (value : Bool)
  | IsVisible (value : Bool)
  | ScriptNotify
  | NavigationStarting
  | NavigationCompleted
  | Cancel (value : Bool)
  | AddInitializeScript (script : WString)
  deriving DecidableEq, Repr

/-- An invocation of one of the stored `std::function` callbacks. -/
inductive Callback
  | messageHandler (message : String)
  | navigationStartHandler (url : String)
  | navigationDoneHandler (success : Bool)
  | readyHandler (controller : Option Nat)
  deriving DecidableEq, Repr

/-- One observable step of the program. -/
inductive Step
  | call (api : Api)
  | invoke (callback : Callback)
  | destroy_Handler
  deriving DecidableEq, Repr

/-- What a blocking function does: it returns a pointer (possibly null), or the
wait with an `INFINITE` timeout is never satisfied. -/
inductive Outcome (α : Type)
  | returned (result : Option α)
  | blocked

/-- The call returned a null pointer. -/
def Outcome.noInstance {α : Type} : Outcome α → Bool
  | .returned none => true
  | _ => false

/-- The call returned a live instance. -/
def Outcome.hasInstance {α : Type} : Outcome α → Bool
  | .returned (some _) => true
  | _ => false

/-- The call never returned. -/
def Outcome.isBlocked {α : Type} : Outcome α → Bool
  | .blocked => true
  | _ => false

def Outcome.map {α β : Type} (f : α → β) : Outcome α → Outcome β
  | .returned r => .returned (r.map f)
  | .blocked => .blocked

/-- The call operator of `std::function`: an empty target throws. -/
def invokeFunction {α β : Type} (f : Option (α → β)) (a : α) : Except Exception β :=
  match f with
  | none => Except.error Exception.bad_function_call
  | some g => Except.ok (g a)

/-- The step initialises the process-wide runtime context. -/
def Step.initsRuntime : Step → Bool
  | .call .CoInitializeEx => true
  | .call .init_apartment => true
  | _ => false

/-- The step releases one reference of the process-wide runtime context. -/
def Step.releasesRuntime : Step → Bool
  | .call .CoUninitialize_ => true
  | _ => false

/-- The step creates a native resource. -/
def Step.creates : Step → Bool
  | .call .CoInitializeEx => true
  | .call .init_apartment => true
  | .call (.WebViewControlProcess created) => created
  | .call .CreateEvent => true
  | .call (.CreateCoreWebView2EnvironmentWithOptions _) => true
  | .call (.CreateCoreWebView2Controller _) => true
  | .call (.CreateWebViewControlAsync _) => true
  | _ => false

/-! ## Edge Chromium backend (`webview_windows_edge_chromium.cpp`) -/

namespace EdgeChromium

/-- The view object: what `get_Settings` answers (return value, settings pointer). -/
structure ICoreWebView2 where
  id : Nat
  get_Settings : HRESULT × Option Nat
  deriving DecidableEq, Repr

/-- The controller object: the view pointer that `get_CoreWebView2` stores. -/
structure ICoreWebView2Controller where
  id : Nat
  get_CoreWebView2 : Option ICoreWebView2
  deriving DecidableEq, Repr

structure ICoreWebView2Environment where
  id : Nat
  deriving DecidableEq, Repr

structure ICoreWebView2WebMessageReceivedEventArgs where
  TryGetWebMessageAsString : HRESULT × Option WString

structure ICoreWebView2PermissionRequestedEventArgs where
  get_PermissionKind : HRESULT × COREWEBVIEW2_PERMISSION_KIND

structure ICoreWebView2NavigationStartingEventArgs where
  get_Uri : HRESULT × Option WString

structure ICoreWebView2NavigationCompletedEventArgs where
  get_IsSuccess : HRESULT × Bool

/-- The locals of `CreateInstance` that the `ready` lambda captures by reference:
`controller`, `webview` and the state of the auto-reset `event`. -/
structure Locals where
  controller : Option ICoreWebView2Controller
  webview : Option ICoreWebView2
  event : Bool
  deriving DecidableEq, Repr

/-- The type of the one-shot ready callback: it acts on the captured locals and
makes native calls. -/
abbrev ReadyHandler := Option ICoreWebView2Controller → Locals → Locals × List Api

structure Handler where
  _window : HWND
  _messageHandler : Option (String → Unit)
  _navigationStartHandler : Option (String → Bool)
  _navigationDoneHandler : Option (Bool → Unit)
  _readyHandler : Option ReadyHandler

/-- The constructor `Handler::Handler`. -/
def Handler.construct (config : Config) (readyHandler : Option ReadyHandler) : Handler :=
  { _window := config.window
    _messageHandler := config.messageHandler
    _navigationStartHandler := config.navigationStartHandler
    _navigationDoneHandler := config.navigationDoneHandler
    _readyHandler := readyHandler }

def Handler.AddRef (_ : Handler) : Nat := 1

def Handler.Release (_ : Handler) : Nat := 1

def Handler.QueryInterface (_ : Handler) : HRESULT := S_OK

/-- The overload `Handler::Invoke(HRESULT, ICoreWebView2Environment*)`. -/
def Handler.Invoke_Environment (h : Handler) (_res : HRESULT)
    (env : Option ICoreWebView2Environment) : HRESULT × List Step :=
  match env with
  | none => (S_FALSE, [])
  | some _ => (S_OK, [Step.call (Api.CreateCoreWebView2Controller h._window)])

/-- The body of `Handler::Invoke(HRESULT, ICoreWebView2Controller*)` below the
guard: the value it returns and the calls it makes. -/
def Handler.controllerBody (controller : Option ICoreWebView2Controller) :
    HRESULT × List Step :=
  match controller with
  | none => (S_FALSE, [])
  | some c =>
    match c.get_CoreWebView2 with
    | none => (S_FALSE, [Step.call (Api.get_CoreWebView2 c.id)])
    | some _ =>
      (S_OK, [Step.call (Api.get_CoreWebView2 c.id),
              Step.call Api.add_WebMessageReceived,
              Step.call Api.add_PermissionRequested,
              Step.call Api.add_NavigationStarting])

/-- The overload `Handler::Invoke(HRESULT, ICoreWebView2Controller*)`.  With an
empty `_readyHandler` it returns at once; otherwise the `gsl::finally` guard
runs at scope exit: it copies the callback, clears the member, calls the copy. -/
def Handler.Invoke_Controller (h : Handler) (_res : HRESULT)
    (controller : Option ICoreWebView2Controller) (l : Locals) :
    HRESULT × Handler × Locals × List Step :=
  match h._readyHandler with
  | none => (S_FALSE, h, l, [])
  | some ready =>
    let body := Handler.controllerBody controller
    let cleared := { h with _readyHandler := none }
    let after := ready controller l
    (body.1, cleared, after.1,
      body.2 ++ Step.invoke (Callback.readyHandler (controller.map (·.id)))
        :: after.2.map Step.call)

/-- The overload `Handler::Invoke(ICoreWebView2*, ICoreWebView2WebMessageReceivedEventArgs*)`. -/
def Handler.Invoke_WebMessageReceived (h : Handler)
    (args : ICoreWebView2WebMessageReceivedEventArgs) :
    Except Exception (HRESULT × List Step) :=
  match args.TryGetWebMessageAsString with
  | (result, some message) =>
    if result = S_OK then do
      let _ ← invokeFunction h._messageHandler (FromWide message)
      pure (S_OK, [Step.call Api.TryGetWebMessageAsString,
                   Step.invoke (Callback.messageHandler (FromWide message)),
                   Step.call (Api.PostWebMessageAsString message),
                   Step.call Api.CoTaskMemFree])
    else pure (S_OK, [Step.call Api.TryGetWebMessageAsString, Step.call Api.CoTaskMemFree])
  | (_, none) =>
    pure (S_OK, [Step.call Api.TryGetWebMessageAsString, Step.call Api.CoTaskMemFree])

/-- The overload `Handler::Invoke(ICoreWebView2*, ICoreWebView2PermissionRequestedEventArgs*)`. -/
def Handler.Invoke_PermissionRequested (_h : Handler)
    (args : ICoreWebView2PermissionRequestedEventArgs) : HRESULT × List Step :=
  let result := args.get_PermissionKind.1
  let kind := args.get_PermissionKind.2
  if result = S_OK then
    if kind = COREWEBVIEW2_PERMISSION_KIND.CLIPBOARD_READ then
      (S_OK, [Step.call Api.get_PermissionKind,
              Step.call (Api.put_State COREWEBVIEW2_PERMISSION_STATE.ALLOW)])
    else (S_OK, [Step.call Api.get_PermissionKind])
  else (S_OK, [Step.call Api.get_PermissionKind])

/-- The overload `Handler::Invoke(ICoreWebView2*, ICoreWebView2NavigationStartingEventArgs*)`. -/
def Handler.Invoke_NavigationStarting (h : Handler)
    (args : ICoreWebView2NavigationStartingEventArgs) :
    Except Exception (HRESULT × List Step) :=
  match args.get_Uri with
  | (result, some uri) =>
    if result = S_OK then
      if h._navigationStartHandler.isSome then do
        let proceed ← invokeFunction h._navigationStartHandler (FromWide uri)
        if !proceed then
          pure (S_OK, [Step.call Api.get_Uri,
                       Step.invoke (Callback.navigationStartHandler (FromWide uri)),
                       Step.call (Api.put_Cancel true),
                       Step.call Api.CoTaskMemFree])
        else
          pure (S_OK, [Step.call Api.get_Uri,
                       Step.invoke (Callback.navigationStartHandler (FromWide uri)),
                       Step.call Api.CoTaskMemFree])
      else pure (S_OK, [Step.call Api.get_Uri, Step.call Api.CoTaskMemFree])
    else pure (S_OK, [Step.call Api.get_Uri, Step.call Api.CoTaskMemFree])
  | (_, none) => pure (S_OK, [Step.call Api.get_Uri, Step.call Api.CoTaskMemFree])

/-- The overload `Handler::Invoke(ICoreWebView2*, ICoreWebView2NavigationCompletedEventArgs*)`. -/
def Handler.Invoke_NavigationCompleted (h : Handler)
    (args : ICoreWebView2NavigationCompletedEventArgs) :
    Except Exception (HRESULT × List Step) :=
  let result := args.get_IsSuccess.1
  let isSuccess := args.get_IsSuccess.2
  if h._navigationDoneHandler.isSome then do
    let _ ← invokeFunction h._navigationDoneHandler (decide (result = S_OK) && isSuccess)
    pure (S_OK, [Step.call Api.get_IsSuccess,
                 Step.invoke (Callback.navigationDoneHandler (decide (result = S_OK) && isSuccess))])
  else pure (S_OK, [Step.call Api.get_IsSuccess])

structure Instance where
  _window : HWND
  _controller : ICoreWebView2Controller
  _webview : ICoreWebView2
  _handler : Handler

/-- The method `Instance::init`. -/
def Instance.init (_i : Instance) (js : String) : List Step :=
  [Step.call (Api.AddScriptToExecuteOnDocumentCreated (c_str (ToWide js)))]

/-- The constructor `Instance::Instance`. -/
def Instance.construct (window : HWND) (controller : ICoreWebView2Controller)
    (webview : ICoreWebView2) (handler : Handler) : Instance × List Step :=
  let i : Instance :=
    { _window := window, _controller := controller, _webview := webview, _handler := handler }
  (i, i.init "window.external=\x7binvoke:s=>window.chrome.webview.postMessage(s)\x7d")

/-- The destructor `Instance::~Instance`: its body, then the members in reverse
order of declaration, of which only `_handler` owns anything. -/
def Instance.destructor (i : Instance) : List Step :=
  [Step.call Api.CoUninitialize_,
   Step.call (Api.webview_Release i._webview.id),
   Step.call (Api.controller_Release i._controller.id)]
  ++ [Step.destroy_Handler]

/-- A completion callback that the message loop dispatches to the handler. -/
inductive Delivery
  | environmentCompleted (res : HRESULT) (env : Option ICoreWebView2Environment)
  | controllerCompleted (res : HRESULT) (controller : Option ICoreWebView2Controller)
  deriving DecidableEq, Repr

/-- The native layer as `CreateInstance` sees it. -/
structure System where
  GetAvailableCoreWebView2BrowserVersionString : HRESULT
  CreateCoreWebView2EnvironmentWithOptions : HRESULT
  deliveries : List Delivery
  deriving DecidableEq, Repr

def Supported (sys : System) : Bool × List Step :=
  (decide (sys.GetAvailableCoreWebView2BrowserVersionString = S_OK),
    [Step.call Api.GetAvailableCoreWebView2BrowserVersionString])

/-- The `ready` lambda of `CreateInstance`; its guard sets the event on every path. -/
def ready : ReadyHandler := fun created l =>
  match created with
  | none => ({ l with controller := none, event := true }, [Api.SetEvent])
  | some c =>
    match c.get_CoreWebView2 with
    | none =>
      ({ controller := some c, webview := none, event := true },
        [Api.get_CoreWebView2 c.id, Api.SetEvent])
    | some w =>
      if w.get_Settings.1 ≠ S_OK ∨ w.get_Settings.2 = none then
        ({ controller := some c, webview := some w, event := true },
          [Api.get_CoreWebView2 c.id, Api.get_Settings w.id, Api.SetEvent])
      else
        ({ controller := some c, webview := some w, event := true },
          [Api.get_CoreWebView2 c.id, Api.get_Settings w.id,
           Api.put_AreDefaultContextMenusEnabled false,
           Api.put_AreDevToolsEnabled false,
           Api.put_IsStatusBarEnabled false,
           Api.controller_AddRef c.id,
           Api.webview_AddRef w.id,
           Api.SetEvent])

/-- The wait `CoWaitForMultipleHandles(flags, INFINITE, 1, handles, &index)`: the
message loop dispatches the pending completions one by one until the event is
set.  It answers whether the wait returned. -/
def CoWaitForMultipleHandles :
    List Delivery → Handler → Locals → Bool × Handler × Locals × List Step
  | [], h, l => (l.event, h, l, [])
  | d :: ds, h, l =>
    if l.event then (true, h, l, [])
    else
      match d with
      | .environmentCompleted res env =>
        let r := h.Invoke_Environment res env
        let w := CoWaitForMultipleHandles ds h l
        (w.1, w.2.1, w.2.2.1, r.2 ++ w.2.2.2)
      | .controllerCompleted res controller =>
        let r := h.Invoke_Controller res controller l
        let w := CoWaitForMultipleHandles ds r.2.1 r.2.2.1
        (w.1, w.2.1, w.2.2.1, r.2.2.2 ++ w.2.2.2)

def CreateInstance (sys : System) (config : Config) : Outcome Instance × List Step :=
  let probe := Supported sys
  if !probe.1 then (Outcome.returned none, probe.2)
  else
    let handler := Handler.construct config (some ready)
    let wpath := ToWide config.userDataPath
    let start := probe.2 ++
      [Step.call Api.CoInitializeEx,
       Step.call Api.CreateEvent,
       Step.call (Api.CreateCoreWebView2EnvironmentWithOptions
         (if wpath.isEmpty then none else some (c_str wpath)))]
    if sys.CreateCoreWebView2EnvironmentWithOptions ≠ S_OK then
      (Outcome.returned none,
        start ++ [Step.call Api.CoUninitialize_, Step.destroy_Handler, Step.call Api.CloseHandle])
    else
      let w := CoWaitForMultipleHandles sys.deliveries handler
        { controller := none, webview := none, event := false }
      let waited := start ++ Step.call Api.CoWaitForMultipleHandles :: w.2.2.2
      if !w.1 then (Outcome.blocked, waited)
      else
        match w.2.2.1.controller, w.2.2.1.webview with
        | some controller, some webview =>
          let made := Instance.construct config.window controller webview w.2.1
          (Outcome.returned (some made.1), waited ++ made.2 ++ [Step.call Api.CloseHandle])
        | _, _ =>
          (Outcome.returned none,
            waited ++ [Step.call Api.CoUninitialize_, Step.destroy_Handler,
                       Step.call Api.CloseHandle])

end EdgeChromium

/-! ## Edge HTML backend (`webview_windows_edge_html.cpp`) -/

namespace EdgeHtml

/-- The conversion `winrt::to_string` (UTF-16 to UTF-8). -/
def to_string (value : WString) : String := FromWide value

/-- The conversion `winrt::to_hstring` (UTF-8 to UTF-16). -/
def to_hstring (value : String) : WString := ToWide value

structure WebViewControl where
  id : Nat
  deriving DecidableEq, Repr

structure WebViewControlScriptNotifyEventArgs where
  Value : WString

structure WebViewControlNavigationStartingEventArgs where
  AbsoluteUri : WString

structure WebViewControlNavigationCompletedEventArgs where
  IsSuccess : Bool

inductive AsyncStatus
  | Started
  | Completed
  | Canceled
  | Error
  deriving DecidableEq, Repr

/-- The object state: the members, and the copies of the three handlers that the
lambdas registered by the constructor capture. -/
structure Instance where
  _window : HWND
  _webview : WebViewControl
  _initScript : String
  messageHandler : Option (String → Unit)
  navigationStartHandler : Option (String → Bool)
  navigationDoneHandler : Option (Bool → Unit)

/-- The method `Instance::init`. -/
def Instance.init (i : Instance) (js : String) : Instance :=
  { i with _initScript := i._initScript ++ "(function()\x7b" ++ js ++ "\x7d)();" }

/-- The constructor `Instance::Instance`. -/
def Instance.construct (config : Config) (webview : WebViewControl) : Instance × List Step :=
  let i : Instance :=
    { _window := config.window
      _webview := webview
      _initScript := ""
      messageHandler := config.messageHandler
      navigationStartHandler := config.navigationStartHandler
      navigationDoneHandler := config.navigationDoneHandler }
  (i.init "window.external.invoke = s => window.external.notify(s)",
    [Step.call (Api.IsScriptNotifyAllowed true),
     Step.call (Api.IsVisible true),
     Step.call Api.ScriptNotify,
     Step.call Api.NavigationStarting,
     Step.call Api.NavigationCompleted])

/-- The lambda registered with `_webview.ScriptNotify`. -/
def Instance.ScriptNotify (i : Instance) (args : WebViewControlScriptNotifyEventArgs) :
    Except Exception (List Step) :=
  if i.messageHandler.isSome then do
    let _ ← invokeFunction i.messageHandler (to_string args.Value)
    pure [Step.invoke (Callback.messageHandler (to_string args.Value))]
  else pure []

/-- The lambda registered with `_webview.NavigationStarting`; it reads
`_initScript` through the captured `this`. -/
def Instance.NavigationStarting (i : Instance)
    (args : WebViewControlNavigationStartingEventArgs) : Except Exception (List Step) :=
  if i.navigationStartHandler.isSome then do
    let proceed ← invokeFunction i.navigationStartHandler (to_string args.AbsoluteUri)
    if !proceed then
      pure [Step.invoke (Callback.navigationStartHandler (to_string args.AbsoluteUri)),
            Step.call (Api.Cancel true),
            Step.call (Api.AddInitializeScript (to_hstring i._initScript))]
    else
      pure [Step.invoke (Callback.navigationStartHandler (to_string args.AbsoluteUri)),
            Step.call (Api.AddInitializeScript (to_hstring i._initScript))]
  else pure [Step.call (Api.AddInitializeScript (to_hstring i._initScript))]

/-- The lambda registered with `_webview.NavigationCompleted`. -/
def Instance.NavigationCompleted (i : Instance)
    (args : WebViewControlNavigationCompletedEventArgs) : Except Exception (List Step) :=
  if i.navigationDoneHandler.isSome then do
    let _ ← invokeFunction i.navigationDoneHandler args.IsSuccess
    pure [Step.invoke (Callback.navigationDoneHandler args.IsSuccess)]
  else pure []

/-- The native layer as `CreateInstance` sees it: the value of the function-local
static `resolved`, whether `WebViewControlProcess()` yields a non-null object,
the status of the asynchronous operation, whether its completion is delivered
while waiting, and what `GetResults` answers. -/
structure System where
  resolved : Bool
  WebViewControlProcess : Bool
  Status : AsyncStatus
  completionDelivered : Bool
  GetResults : Option WebViewControl
  deriving DecidableEq, Repr

def Supported (sys : System) : Bool × List Step :=
  if sys.resolved then
    (sys.WebViewControlProcess, [Step.call (Api.WebViewControlProcess sys.WebViewControlProcess)])
  else (false, [])

def CreateInstance (sys : System) (config : Config) : Outcome Instance × List Step :=
  let probe := Supported sys
  if !probe.1 then (Outcome.returned none, probe.2)
  else
    let start := probe.2 ++
      [Step.call Api.init_apartment,
       Step.call (Api.WebViewControlProcess sys.WebViewControlProcess),
       Step.call (Api.CreateWebViewControlAsync config.window),
       Step.call Api.Status]
    let started := start ++
      [Step.call Api.CreateEvent, Step.call Api.Completed, Step.call Api.CoWaitForMultipleHandles]
    if sys.Status = AsyncStatus.Started ∧ sys.completionDelivered = false then
      (Outcome.blocked, started)
    else
      let waited :=
        if sys.Status = AsyncStatus.Started then
          started ++ [Step.call Api.SetEvent, Step.call Api.CloseHandle]
        else start
      match sys.GetResults with
      | none => (Outcome.returned none, waited ++ [Step.call Api.GetResults])
      | some webview =>
        let made := Instance.construct config webview
        (Outcome.returned (some made.1), waited ++ Step.call Api.GetResults :: made.2)

end EdgeHtml

/-! ## Linux backend (`webview_linux.cpp`) and the common interface -/

/-- The abstract `Interface`: an instance of one of the concrete backends. -/
inductive Interface
  | edgeChromium (i : EdgeChromium.Instance)
  | edgeHtml (i : EdgeHtml.Instance)

def Supported : Bool := false

def SupportsEmbedAfterCreate : Bool := true

def CreateInstance (_config : Config) : Option Interface := none

/-- A backend together with the native layer it runs against. -/
inductive Backend
  | linux
  | edgeChromium (sys : EdgeChromium.System)
  | edgeHtml (sys : EdgeHtml.System)

/-- The capability probe of a backend and the calls it makes. -/
def Backend.Supported : Backend → Bool × List Step
  | .linux => (Webview.Supported, [])
  | .edgeChromium sys => EdgeChromium.Supported sys
  | .edgeHtml sys => EdgeHtml.Supported sys

/-- The entry point `CreateInstance` of a backend and the steps it takes. -/
def Backend.CreateInstance : Backend → Config → Outcome Interface × List Step
  | .linux, config => (Outcome.returned (Webview.CreateInstance config), [])
  | .edgeChromium sys, config =>
    ((EdgeChromium.CreateInstance sys config).1.map Interface.edgeChromium,
      (EdgeChromium.CreateInstance sys config).2)
  | .edgeHtml sys, config =>
    ((EdgeHtml.CreateInstance sys config).1.map Interface.edgeHtml,
      (EdgeHtml.CreateInstance sys config).2)

/-! ## Drivers and sample inputs -/

namespace EdgeChromium

/-- The controller-completion notifications `ns`, delivered in order to one
handler: the final handler and locals, and what each call returned and did. -/
def deliverControllers :
    Handler → Locals → List (HRESULT × Option ICoreWebView2Controller) →
      Handler × Locals × List (HRESULT × List Step)
  | h, l, [] => (h, l, [])
  | h, l, n :: ns =>
    ((deliverControllers (h.Invoke_Controller n.1 n.2 l).2.1
        (h.Invoke_Controller n.1 n.2 l).2.2.1 ns).1,
     (deliverControllers (h.Invoke_Controller n.1 n.2 l).2.1
        (h.Invoke_Controller n.1 n.2 l).2.2.1 ns).2.1,
     ((h.Invoke_Controller n.1 n.2 l).1, (h.Invoke_Controller n.1 n.2 l).2.2.2) ::
       (deliverControllers (h.Invoke_Controller n.1 n.2 l).2.1
        (h.Invoke_Controller n.1 n.2 l).2.2.1 ns).2.2)

/-- The controllers with which the ready callback was invoked, in order. -/
def readyInvocations : List Step → List (Option Nat)
  | [] => []
  | Step.invoke (Callback.readyHandler c) :: rest => c :: readyInvocations rest
  | _ :: rest => readyInvocations rest

/-- The first controller completion that the message loop dispatches. -/
def firstControllerCompleted :
    List Delivery → Option (HRESULT × Option ICoreWebView2Controller)
  | [] => none
  | .environmentCompleted _ _ :: ds => firstControllerCompleted ds
  | .controllerCompleted res controller :: _ => some (res, controller)

/-- The kinds of step that the handler and the ready lambda can take while
`CreateInstance` waits. -/
def duringWait : Step → Bool
  | .call (.CreateCoreWebView2Controller _) => true
  | .call (.get_CoreWebView2 _) => true
  | .call .add_WebMessageReceived => true
  | .call .add_PermissionRequested => true
  | .call .add_NavigationStarting => true
  | .invoke (.readyHandler _) => true
  | .call (.get_Settings _) => true
  | .call (.put_AreDefaultContextMenusEnabled _) => true
  | .call (.put_AreDevToolsEnabled _) => true
  | .call (.put_IsStatusBarEnabled _) => true
  | .call (.controller_AddRef _) => true
  | .call (.webview_AddRef _) => true
  | .call .SetEvent => true
  | _ => false

/-- The event registrations among the steps. -/
def registrations (steps : List Step) : List Step :=
  steps.filter fun s =>
    decide (s = Step.call Api.add_WebMessageReceived ∨ s = Step.call Api.add_PermissionRequested
      ∨ s = Step.call Api.add_NavigationStarting ∨ s = Step.call Api.add_NavigationCompleted)

def sampleView : ICoreWebView2 := { id := 7, get_Settings := (S_OK, some 1) }

/-- A view whose `get_Settings` fails. -/
def sampleViewNoSettings : ICoreWebView2 := { id := 7, get_Settings := (E_FAIL, none) }

def sampleController : ICoreWebView2Controller := { id := 3, get_CoreWebView2 := some sampleView }

/-- A controller whose `get_CoreWebView2` stores a null view. -/
def sampleControllerNoView : ICoreWebView2Controller := { id := 3, get_CoreWebView2 := none }

/-- A native layer on which every stage succeeds. -/
def sampleSystem : System :=
  { GetAvailableCoreWebView2BrowserVersionString := S_OK
    CreateCoreWebView2EnvironmentWithOptions := S_OK
    deliveries :=
      [Delivery.environmentCompleted S_OK (some { id := 1 }),
       Delivery.controllerCompleted S_OK (some sampleController)] }

/-- The controller completion carries a failure code together with a live controller. -/
def sampleSystemStatusFailure : System :=
  { sampleSystem with
    deliveries :=
      [Delivery.environmentCompleted S_OK (some { id := 1 }),
       Delivery.controllerCompleted E_FAIL (some sampleController)] }

/-- The settings object cannot be fetched from the created view. -/
def sampleSystemSettingsFailure : System :=
  { sampleSystem with
    deliveries :=
      [Delivery.environmentCompleted S_OK (some { id := 1 }),
       Delivery.controllerCompleted S_OK
         (some { id := 3, get_CoreWebView2 := some sampleViewNoSettings })] }

/-- The environment completion carries a failure code and a null environment. -/
def sampleSystemNoEnvironment : System :=
  { sampleSystem with deliveries := [Delivery.environmentCompleted E_FAIL none] }

/-- The controller completion carries a null controller. -/
def sampleSystemNoController : System :=
  { sampleSystem with
    deliveries :=
      [Delivery.environmentCompleted S_OK (some { id := 1 }),
       Delivery.controllerCompleted E_FAIL none] }

/-- The engine is not installed. -/
def sampleSystemUnsupported : System :=
  { GetAvailableCoreWebView2BrowserVersionString := E_FAIL
    CreateCoreWebView2EnvironmentWithOptions := E_FAIL
    deliveries := [] }

end EdgeChromium

namespace EdgeHtml

/-- The wrappers `"(function(){" + js + "})();"` of the scripts, concatenated in
the order of the list. -/
def wrappers : List String → String
  | [] => ""
  | js :: rest => "(function()\x7b" ++ js ++ "\x7d)();" ++ wrappers rest

/-- The engine is usable but the asynchronous creation yields no view. -/
def sampleSystemNoResults : System :=
  { resolved := true
    WebViewControlProcess := true
    Status := AsyncStatus.Completed
    completionDelivered := true
    GetResults := none }

/-- WinRT could not be resolved. -/
def sampleSystemUnsupported : System :=
  { resolved := false
    WebViewControlProcess := false
    Status := AsyncStatus.Error
    completionDelivered := false
    GetResults := none }

end EdgeHtml

/-- A script with a NUL character in the middle: `a`, NUL, `b`. -/
def sampleScriptWithNul : String := String.mk [Char.ofNat 97, Char.ofNat 0, Char.ofNat 98]

/-- The part of a script before its first NUL character. -/
def beforeNul (js : String) : String :=
  String.mk (js.toList.takeWhile fun c => decide (c.toNat ≠ 0))

/-- A configuration without any handler. -/
def sampleConfig : Config :=
  { window := 1
    userDataPath := ""
    messageHandler := none
    navigationStartHandler := none
    navigationDoneHandler := none }

def sampleInstance : EdgeChromium.Instance :=
  { _window := 1
    _controller := EdgeChromium.sampleController
    _webview := EdgeChromium.sampleView
    _handler := EdgeChromium.Handler.construct sampleConfig none }

/-! ## Event bridge: navigation veto, permissions, absent handlers -/

/-- C8: a permission request gets `put_State(ALLOW)` exactly when the kind query
succeeded with kind clipboard-read; in every other case no state is set at all;
the callback always returns `S_OK`. -/
theorem permission_only_clipboard_read_allowed
    (h : EdgeChromium.Handler) (args : EdgeChromium.ICoreWebView2PermissionRequestedEventArgs) :
    (h.Invoke_PermissionRequested args).1 = S_OK ∧
    (Step.call (Api.put_State COREWEBVIEW2_PERMISSION_STATE.ALLOW)
        ∈ (h.Invoke_PermissionRequested args).2 ↔
      args.get_PermissionKind = (S_OK, COREWEBVIEW2_PERMISSION_KIND.CLIPBOARD_READ)) ∧
    (args.get_PermissionKind.2 ≠ COREWEBVIEW2_PERMISSION_KIND.CLIPBOARD_READ →
      ∀ state, Step.call (Api.put_State state) ∉ (h.Invoke_PermissionRequested args).2) ∧
    (∀ state, Step.call (Api.put_State state) ∈ (h.Invoke_PermissionRequested args).2 →
      state = COREWEBVIEW2_PERMISSION_STATE.ALLOW) := by
  obtain ⟨⟨result, kind⟩⟩ := args
  unfold EdgeChromium.Handler.Invoke_PermissionRequested
  by_cases hr : result = S_OK <;>
    by_cases hk : kind = COREWEBVIEW2_PERMISSION_KIND.CLIPBOARD_READ <;>
    simp [hr, hk]

/-- C5 (the code at the failing input): an Edge Chromium message-received event
with a valid string payload, delivered to a bridge whose `messageHandler` is
absent, calls the empty `std::function` and throws instead of returning `S_OK`. -/
theorem absent_messageHandler_throws :
    (EdgeChromium.Handler.construct sampleConfig (some EdgeChromium.ready)).Invoke_WebMessageReceived
        { TryGetWebMessageAsString := (S_OK, some (ToWide "hi")) }
      = Except.error Exception.bad_function_call := by
  rfl

/-- The other five callbacks check their handler first: with the handler absent
they complete without invoking anything. -/
theorem absent_handlers_checked_elsewhere
    (h : EdgeChromium.Handler) (i : EdgeHtml.Instance)
    (n : EdgeChromium.ICoreWebView2NavigationStartingEventArgs)
    (d : EdgeChromium.ICoreWebView2NavigationCompletedEventArgs)
    (m : EdgeHtml.WebViewControlScriptNotifyEventArgs)
    (n' : EdgeHtml.WebViewControlNavigationStartingEventArgs)
    (d' : EdgeHtml.WebViewControlNavigationCompletedEventArgs) :
    (h._navigationStartHandler = none →
      h.Invoke_NavigationStarting n
        = Except.ok (S_OK, [Step.call Api.get_Uri, Step.call Api.CoTaskMemFree])) ∧
    (h._navigationDoneHandler = none →
      h.Invoke_NavigationCompleted d = Except.ok (S_OK, [Step.call Api.get_IsSuccess])) ∧
    (i.messageHandler = none → i.ScriptNotify m = Except.ok []) ∧
    (i.navigationStartHandler = none →
      i.NavigationStarting n'
        = Except.ok [Step.call (Api.AddInitializeScript (EdgeHtml.to_hstring i._initScript))]) ∧
    (i.navigationDoneHandler = none → i.NavigationCompleted d' = Except.ok []) := by
  refine ⟨fun e => ?_, fun e => ?_, fun e => ?_, fun e => ?_, fun e => ?_⟩
  · obtain ⟨⟨result, uri⟩⟩ := n
    unfold EdgeChromium.Handler.Invoke_NavigationStarting
    cases uri <;> simp [e, pure, Except.pure]
  · simp [EdgeChromium.Handler.Invoke_NavigationCompleted, e, pure, Except.pure]
  · simp [EdgeHtml.Instance.ScriptNotify, e, pure, Except.pure]
  · simp [EdgeHtml.Instance.NavigationStarting, e, pure, Except.pure]
  · simp [EdgeHtml.Instance.NavigationCompleted, e, pure, Except.pure]

/-! ## Teardown -/

/-- C9 (the claim fails): on a concrete instance the runtime context is released
before the view, so "view, then controller, then runtime context" does not hold. -/
theorem teardown_order_counterexample :
    sampleInstance.destructor
      = [Step.call Api.CoUninitialize_, Step.call (Api.webview_Release 7),
         Step.call (Api.controller_Release 3), Step.destroy_Handler] ∧
    ¬ (List.indexOf (Step.call (Api.webview_Release 7)) sampleInstance.destructor
          < List.indexOf (Step.call (Api.controller_Release 3)) sampleInstance.destructor ∧
        List.indexOf (Step.call (Api.controller_Release 3)) sampleInstance.destructor
          < List.indexOf (Step.call Api.CoUninitialize_) sampleInstance.destructor) := by
  decide

/-- C9 (amended): teardown of an Edge Chromium instance releases the process-wide
runtime context first, then the view handle, then the controller handle, and
destroys the handler last, after both native handles were released. -/
theorem teardown_order (i : EdgeChromium.Instance) :
    i.destructor
      = [Step.call Api.CoUninitialize_,
         Step.call (Api.webview_Release i._webview.id),
         Step.call (Api.controller_Release i._controller.id),
         Step.destroy_Handler] := by
  rfl

/-! ## The one-shot ready callback -/

namespace EdgeChromium

theorem Invoke_Controller_cleared (h : Handler) (e : h._readyHandler = none) (res : HRESULT)
    (c : Option ICoreWebView2Controller) (l : Locals) :
    h.Invoke_Controller res c l = (S_FALSE, h, l, []) := by
  simp [Handler.Invoke_Controller, e]

theorem deliverControllers_cleared (h : Handler) (e : h._readyHandler = none) (l : Locals)
    (ns : List (HRESULT × Option ICoreWebView2Controller)) :
    deliverControllers h l ns = (h, l, ns.map fun _ => (S_FALSE, [])) := by
  induction ns with
  | nil => rfl
  | cons n ns ih => simp [deliverControllers, Invoke_Controller_cleared h e, ih]

theorem readyInvocations_append (a b : List Step) :
    readyInvocations (a ++ b) = readyInvocations a ++ readyInvocations b := by
  induction a with
  | nil => rfl
  | cons s a ih =>
    cases s with
    | call api => simpa [readyInvocations] using ih
    | invoke cb => cases cb <;> simpa [readyInvocations] using ih
    | destroy_Handler => simpa [readyInvocations] using ih

theorem readyInvocations_calls (apis : List Api) :
    readyInvocations (apis.map Step.call) = [] := by
  induction apis with
  | nil => rfl
  | cons a apis ih => simpa [readyInvocations] using ih

theorem readyInvocations_controllerBody (c : Option ICoreWebView2Controller) :
    readyInvocations (Handler.controllerBody c).2 = [] := by
  unfold Handler.controllerBody
  cases c with
  | none => rfl
  | some c => cases e : c.get_CoreWebView2 <;> simp [e, readyInvocations]

theorem readyInvocations_Invoke_Controller (h : Handler) (r : ReadyHandler)
    (e : h._readyHandler = some r) (res : HRESULT) (c : Option ICoreWebView2Controller)
    (l : Locals) :
    readyInvocations (h.Invoke_Controller res c l).2.2.2 = [c.map (·.id)] := by
  simp [Handler.Invoke_Controller, e, readyInvocations_append, readyInvocations,
    readyInvocations_calls, readyInvocations_controllerBody]

theorem readyInvocations_silent (ns : List (HRESULT × Option ICoreWebView2Controller)) :
    readyInvocations
      (List.map (fun _ => ((S_FALSE, []) : HRESULT × List Step)) ns |>.map (·.2)).flatten = [] := by
  induction ns with
  | nil => rfl
  | cons n ns ih => simpa using ih

end EdgeChromium

/-- C2: for one or more controller-completion notifications delivered to a handler
built with a ready callback (any mix of null and live controllers), the callback
is invoked exactly once over the whole sequence, namely by the first
notification and with its controller; the stored callback is cleared by that
call, and every later notification returns `S_FALSE` without doing anything and
leaves the handler and the captured locals as the first one left them. -/
theorem ready_fires_exactly_once
    (config : Config) (r : EdgeChromium.ReadyHandler)
    (n : HRESULT × Option EdgeChromium.ICoreWebView2Controller)
    (ns : List (HRESULT × Option EdgeChromium.ICoreWebView2Controller))
    (l : EdgeChromium.Locals) :
    EdgeChromium.readyInvocations
        (((EdgeChromium.deliverControllers (EdgeChromium.Handler.construct config (some r)) l
            (n :: ns)).2.2.map (·.2)).flatten)
      = [n.2.map (·.id)] ∧
    EdgeChromium.readyInvocations
        ((EdgeChromium.Handler.construct config (some r)).Invoke_Controller n.1 n.2 l).2.2.2
      = [n.2.map (·.id)] ∧
    ((EdgeChromium.Handler.construct config (some r)).Invoke_Controller n.1 n.2 l).2.1._readyHandler
      = none ∧
    ((EdgeChromium.Handler.construct config (some r)).Invoke_Controller n.1 n.2 l).2.2.1
      = (r n.2 l).1 ∧
    (EdgeChromium.deliverControllers (EdgeChromium.Handler.construct config (some r)) l
        (n :: ns)).2.2.tail
      = ns.map (fun _ => (S_FALSE, [])) ∧
    (EdgeChromium.deliverControllers (EdgeChromium.Handler.construct config (some r)) l
        (n :: ns)).1._readyHandler = none ∧
    (EdgeChromium.deliverControllers (EdgeChromium.Handler.construct config (some r)) l
        (n :: ns)).2.1 = (r n.2 l).1 := by
  have hc : ((EdgeChromium.Handler.construct config (some r)).Invoke_Controller
      n.1 n.2 l).2.1._readyHandler = none := by
    simp [EdgeChromium.Handler.Invoke_Controller, EdgeChromium.Handler.construct]
  have hl : ((EdgeChromium.Handler.construct config (some r)).Invoke_Controller
      n.1 n.2 l).2.2.1 = (r n.2 l).1 := by
    simp [EdgeChromium.Handler.Invoke_Controller, EdgeChromium.Handler.construct]
  have hi := EdgeChromium.readyInvocations_Invoke_Controller
    (EdgeChromium.Handler.construct config (some r)) r rfl n.1 n.2 l
  have hd := EdgeChromium.deliverControllers_cleared _ hc
    ((EdgeChromium.Handler.construct config (some r)).Invoke_Controller n.1 n.2 l).2.2.1 ns
  refine ⟨?_, hi, hc, hl, ?_, ?_, ?_⟩
  · simp only [EdgeChromium.deliverControllers, hd, List.map_cons, List.flatten_cons,
      EdgeChromium.readyInvocations_append, hi, EdgeChromium.readyInvocations_silent,
      List.append_nil]
  · simp only [EdgeChromium.deliverControllers, hd, List.tail_cons]
  · simp only [EdgeChromium.deliverControllers, hd, hc]
  · simp only [EdgeChromium.deliverControllers, hd]
    exact hl

/-! ## The blocking bootstrap of Edge Chromium -/

namespace EdgeChromium

theorem ready_sets_event (c : Option ICoreWebView2Controller) (l : Locals) :
    (ready c l).1.event = true := by
  unfold ready
  cases c with
  | none => rfl
  | some c =>
    cases e : c.get_CoreWebView2 with
    | none => simp [e]
    | some w => by_cases hs : w.get_Settings.1 ≠ S_OK ∨ w.get_Settings.2 = none <;> simp [e, hs]

theorem ready_controller (c : Option ICoreWebView2Controller) (l : Locals) :
    (ready c l).1.controller = c := by
  unfold ready
  cases c with
  | none => rfl
  | some c =>
    cases e : c.get_CoreWebView2 with
    | none => simp [e]
    | some w => by_cases hs : w.get_Settings.1 ≠ S_OK ∨ w.get_Settings.2 = none <;> simp [e, hs]

theorem ready_webview (c : ICoreWebView2Controller) (l : Locals) :
    (ready (some c) l).1.webview = c.get_CoreWebView2 := by
  unfold ready
  cases e : c.get_CoreWebView2 with
  | none => simp [e]
  | some w => by_cases hs : w.get_Settings.1 ≠ S_OK ∨ w.get_Settings.2 = none <;> simp [e, hs]

theorem ready_duringWait (c : Option ICoreWebView2Controller) (l : Locals) :
    ∀ a ∈ (ready c l).2, duringWait (Step.call a) = true := by
  unfold ready
  cases c with
  | none => simp [duringWait]
  | some c =>
    cases e : c.get_CoreWebView2 with
    | none => simp [e, duringWait]
    | some w =>
      by_cases hs : w.get_Settings.1 ≠ S_OK ∨ w.get_Settings.2 = none <;> simp [e, hs, duringWait]

theorem controllerBody_duringWait (c : Option ICoreWebView2Controller) :
    ∀ s ∈ (Handler.controllerBody c).2, duringWait s = true := by
  unfold Handler.controllerBody
  cases c with
  | none => simp
  | some c => cases e : c.get_CoreWebView2 <;> simp [e, duringWait]

theorem wait_signalled (ds : List Delivery) (h : Handler) (l : Locals) (e : l.event = true) :
    CoWaitForMultipleHandles ds h l = (true, h, l, []) := by
  cases ds with
  | nil => simp [CoWaitForMultipleHandles, e]
  | cons d ds => simp [CoWaitForMultipleHandles, e]

/-- Every step taken while waiting is a step of the handler or of the ready lambda. -/
theorem wait_duringWait (ds : List Delivery) :
    ∀ (h : Handler) (l : Locals), (h._readyHandler = none ∨ h._readyHandler = some ready) →
      ∀ s ∈ (CoWaitForMultipleHandles ds h l).2.2.2, duringWait s = true := by
  induction ds with
  | nil => intro h l _ s hs; simp [CoWaitForMultipleHandles] at hs
  | cons d ds ih =>
    intro h l hr s hs
    by_cases e : l.event = true
    · simp [wait_signalled _ h l e] at hs
    · cases d with
      | environmentCompleted res env =>
        simp only [CoWaitForMultipleHandles, e, Bool.false_eq_true, if_false,
          List.mem_append] at hs
        rcases hs with hs | hs
        · cases env with
          | none => simp [Handler.Invoke_Environment] at hs
          | some env =>
            simp [Handler.Invoke_Environment] at hs
            subst hs
            rfl
        · exact ih h l hr s hs
      | controllerCompleted res c =>
        simp only [CoWaitForMultipleHandles, e, Bool.false_eq_true, if_false,
          List.mem_append] at hs
        rcases hs with hs | hs
        · rcases hr with hr | hr
          · simp [Handler.Invoke_Controller, hr] at hs
          · simp only [Handler.Invoke_Controller, hr, List.mem_append, List.mem_cons,
              List.mem_map] at hs
            rcases hs with hs | hs | ⟨a, ha, rfl⟩
            · exact controllerBody_duringWait c s hs
            · subst hs
              rfl
            · exact ready_duringWait c l a ha
        · refine ih _ _ ?_ s hs
          rcases hr with hr | hr
          · left
            simp [Handler.Invoke_Controller, hr]
          · left
            simp [Handler.Invoke_Controller, hr]

/-- The wait returns exactly when a controller completion is dispatched, and then
the captured locals are those the ready lambda left for that completion. -/
theorem wait_result (ds : List Delivery) :
    ∀ (h : Handler) (l : Locals), h._readyHandler = some ready → l.event = false →
      (firstControllerCompleted ds = none →
        (CoWaitForMultipleHandles ds h l).1 = false) ∧
      (∀ res c, firstControllerCompleted ds = some (res, c) →
        (CoWaitForMultipleHandles ds h l).1 = true ∧
        (CoWaitForMultipleHandles ds h l).2.2.1 = (ready c l).1) := by
  induction ds with
  | nil =>
    intro h l _ e
    simp [CoWaitForMultipleHandles, firstControllerCompleted, e]
  | cons d ds ih =>
    intro h l hr e
    cases d with
    | environmentCompleted res env =>
      simpa [CoWaitForMultipleHandles, firstControllerCompleted, e] using ih h l hr e
    | controllerCompleted res c =>
      have hw := wait_signalled ds (h.Invoke_Controller res c l).2.1
        (h.Invoke_Controller res c l).2.2.1
        (by simp [Handler.Invoke_Controller, hr, ready_sets_event])
      simp only [CoWaitForMultipleHandles, firstControllerCompleted, e, hw]
      simp [Handler.Invoke_Controller, hr]

end EdgeChromium

namespace EdgeChromium

theorem CreateInstance_unsupported (sys : System) (config : Config)
    (hs : (Supported sys).1 = false) :
    CreateInstance sys config = (Outcome.returned none, (Supported sys).2) := by
  simp [CreateInstance, hs]

theorem CreateInstance_request_failed (sys : System) (config : Config)
    (hc : sys.CreateCoreWebView2EnvironmentWithOptions ≠ S_OK) :
    (CreateInstance sys config).1 = Outcome.returned none := by
  unfold CreateInstance
  by_cases hs : (Supported sys).1 = true <;> simp [hs, hc]

/-- What `CreateInstance` returns once a controller completion was dispatched:
an instance exactly when the controller and its view are both non-null. -/
theorem CreateInstance_completed (sys : System) (config : Config)
    (hs : (Supported sys).1 = true)
    (hc : sys.CreateCoreWebView2EnvironmentWithOptions = S_OK)
    (res : HRESULT) (c : Option ICoreWebView2Controller)
    (hfc : firstControllerCompleted sys.deliveries = some (res, c)) :
    ((c.bind (·.get_CoreWebView2)) = none →
      (CreateInstance sys config).1 = Outcome.returned none) ∧
    ((c.bind (·.get_CoreWebView2)).isSome = true →
      (CreateInstance sys config).1.hasInstance = true) := by
  obtain ⟨-, hw⟩ := wait_result sys.deliveries (Handler.construct config (some ready))
    { controller := none, webview := none, event := false } rfl rfl
  obtain ⟨hw1, hw2⟩ := hw res c hfc
  unfold CreateInstance
  simp only [hs, hc, hw1, hw2, ready_controller]
  cases c with
  | none => simp [Outcome.hasInstance]
  | some c =>
    rw [ready_webview]
    cases e : c.get_CoreWebView2 <;> simp [Outcome.hasInstance, e]

theorem CreateInstance_blocked (sys : System) (config : Config)
    (hs : (Supported sys).1 = true)
    (hc : sys.CreateCoreWebView2EnvironmentWithOptions = S_OK)
    (hfc : firstControllerCompleted sys.deliveries = none) :
    (CreateInstance sys config).1 = Outcome.blocked := by
  obtain ⟨hw, -⟩ := wait_result sys.deliveries (Handler.construct config (some ready))
    { controller := none, webview := none, event := false } rfl rfl
  unfold CreateInstance
  simp [hs, hc, hw hfc]

end EdgeChromium

/-- C3 (the claim fails): three bootstraps in which a native stage reports failure
and `CreateInstance` still does not return a null pointer.  A failure code that
comes with a live controller is not looked at, and neither is a failure to fetch
the settings: an instance is returned.  A null environment is answered without
signalling, so the wait never ends. -/
theorem bootstrap_failure_counterexample :
    ((EdgeChromium.Supported EdgeChromium.sampleSystemStatusFailure).1 = true ∧
      (EdgeChromium.CreateInstance EdgeChromium.sampleSystemStatusFailure sampleConfig).1.hasInstance
        = true) ∧
    ((EdgeChromium.Supported EdgeChromium.sampleSystemSettingsFailure).1 = true ∧
      (EdgeChromium.CreateInstance EdgeChromium.sampleSystemSettingsFailure sampleConfig).1.hasInstance
        = true) ∧
    ((EdgeChromium.Supported EdgeChromium.sampleSystemNoEnvironment).1 = true ∧
      (EdgeChromium.CreateInstance EdgeChromium.sampleSystemNoEnvironment sampleConfig).1.noInstance
        = false ∧
      (EdgeChromium.CreateInstance EdgeChromium.sampleSystemNoEnvironment sampleConfig).1.isBlocked
        = true) := by
  decide

/-- C3 (amended): `CreateInstance` of Edge Chromium returns no instance whenever
the environment-creation request returns a non-success status, or the controller
completion delivers a null controller, or the view handle obtained from the
delivered controller is null. -/
theorem bootstrap_handle_failure_returns_none
    (sys : EdgeChromium.System) (config : Config)
    (hf : sys.CreateCoreWebView2EnvironmentWithOptions ≠ S_OK ∨
      (∃ res, EdgeChromium.firstControllerCompleted sys.deliveries = some (res, none)) ∨
      (∃ res c, EdgeChromium.firstControllerCompleted sys.deliveries = some (res, some c) ∧
        c.get_CoreWebView2 = none)) :
    (EdgeChromium.CreateInstance sys config).1 = Outcome.returned none := by
  by_cases hs : (EdgeChromium.Supported sys).1 = true
  · by_cases hc : sys.CreateCoreWebView2EnvironmentWithOptions = S_OK
    · rcases hf with hf | ⟨res, hf⟩ | ⟨res, c, hf, hv⟩
      · exact absurd hc hf
      · exact (EdgeChromium.CreateInstance_completed sys config hs hc res none hf).1 rfl
      · exact (EdgeChromium.CreateInstance_completed sys config hs hc res (some c) hf).1
          (by simpa using hv)
    · exact EdgeChromium.CreateInstance_request_failed sys config hc
  · rw [EdgeChromium.CreateInstance_unsupported sys config (by simpa using hs)]

theorem bootstrap_handle_failure_returns_none_witness :
    (EdgeChromium.sampleSystemNoController.CreateCoreWebView2EnvironmentWithOptions ≠ S_OK ∨
      (∃ res, EdgeChromium.firstControllerCompleted
          EdgeChromium.sampleSystemNoController.deliveries = some (res, none)) ∨
      (∃ res c, EdgeChromium.firstControllerCompleted
          EdgeChromium.sampleSystemNoController.deliveries = some (res, some c) ∧
        c.get_CoreWebView2 = none)) ∧
    (EdgeChromium.Supported EdgeChromium.sampleSystemNoController).1 = true ∧
    (EdgeChromium.CreateInstance EdgeChromium.sampleSystemNoController sampleConfig).1
      = Outcome.returned none :=
  ⟨Or.inr (Or.inl ⟨E_FAIL, rfl⟩), by decide,
    bootstrap_handle_failure_returns_none EdgeChromium.sampleSystemNoController sampleConfig
      (Or.inr (Or.inl ⟨E_FAIL, rfl⟩))⟩

namespace EdgeChromium

theorem duringWait_not_runtime (s : Step) (h : duringWait s = true) :
    s.initsRuntime = false ∧ s.releasesRuntime = false ∧
      s ≠ Step.call Api.add_NavigationCompleted := by
  cases s with
  | call api => cases api <;> simp_all [duringWait, Step.initsRuntime, Step.releasesRuntime]
  | invoke cb => cases cb <;> simp_all [duringWait, Step.initsRuntime, Step.releasesRuntime]
  | destroy_Handler => simp_all [duringWait, Step.initsRuntime, Step.releasesRuntime]

theorem wait_counts (sys : System) (config : Config) :
    List.countP Step.initsRuntime
        (CoWaitForMultipleHandles sys.deliveries (Handler.construct config (some ready))
          { controller := none, webview := none, event := false }).2.2.2 = 0 ∧
    List.countP Step.releasesRuntime
        (CoWaitForMultipleHandles sys.deliveries (Handler.construct config (some ready))
          { controller := none, webview := none, event := false }).2.2.2 = 0 ∧
    Step.call Api.add_NavigationCompleted ∉
        (CoWaitForMultipleHandles sys.deliveries (Handler.construct config (some ready))
          { controller := none, webview := none, event := false }).2.2.2 := by
  have hw := wait_duringWait sys.deliveries (Handler.construct config (some ready))
    { controller := none, webview := none, event := false } (Or.inr rfl)
  refine ⟨?_, ?_, ?_⟩
  · rw [List.countP_eq_zero]
    intro s hs
    simp [(duringWait_not_runtime s (hw s hs)).1]
  · rw [List.countP_eq_zero]
    intro s hs
    simp [(duringWait_not_runtime s (hw s hs)).2.1]
  · intro hs
    exact (duringWait_not_runtime _ (hw _ hs)).2.2 rfl

/-- The five ways through `CreateInstance`, with the steps of each. -/
theorem CreateInstance_paths (sys : System) (config : Config) :
    ((Supported sys).1 = false ∧
      CreateInstance sys config
        = (Outcome.returned none, [Step.call Api.GetAvailableCoreWebView2BrowserVersionString])) ∨
    ((Supported sys).1 = true ∧
      ∃ folder,
        CreateInstance sys config
          = (Outcome.returned none,
              [Step.call Api.GetAvailableCoreWebView2BrowserVersionString,
               Step.call Api.CoInitializeEx, Step.call Api.CreateEvent,
               Step.call (Api.CreateCoreWebView2EnvironmentWithOptions folder),
               Step.call Api.CoUninitialize_, Step.destroy_Handler,
               Step.call Api.CloseHandle])) ∨
    ((Supported sys).1 = true ∧
      ∃ folder,
        CreateInstance sys config
          = (Outcome.blocked,
              [Step.call Api.GetAvailableCoreWebView2BrowserVersionString,
               Step.call Api.CoInitializeEx, Step.call Api.CreateEvent,
               Step.call (Api.CreateCoreWebView2EnvironmentWithOptions folder),
               Step.call Api.CoWaitForMultipleHandles]
              ++ (CoWaitForMultipleHandles sys.deliveries (Handler.construct config (some ready))
                    { controller := none, webview := none, event := false }).2.2.2)) ∨
    ((Supported sys).1 = true ∧
      ∃ folder i js,
        CreateInstance sys config
          = (Outcome.returned (some i),
              [Step.call Api.GetAvailableCoreWebView2BrowserVersionString,
               Step.call Api.CoInitializeEx, Step.call Api.CreateEvent,
               Step.call (Api.CreateCoreWebView2EnvironmentWithOptions folder),
               Step.call Api.CoWaitForMultipleHandles]
              ++ (CoWaitForMultipleHandles sys.deliveries (Handler.construct config (some ready))
                    { controller := none, webview := none, event := false }).2.2.2
              ++ [Step.call (Api.AddScriptToExecuteOnDocumentCreated js),
                  Step.call Api.CloseHandle])) ∨
    ((Supported sys).1 = true ∧
      ∃ folder,
        CreateInstance sys config
          = (Outcome.returned none,
              [Step.call Api.GetAvailableCoreWebView2BrowserVersionString,
               Step.call Api.CoInitializeEx, Step.call Api.CreateEvent,
               Step.call (Api.CreateCoreWebView2EnvironmentWithOptions folder),
               Step.call Api.CoWaitForMultipleHandles]
              ++ (CoWaitForMultipleHandles sys.deliveries (Handler.construct config (some ready))
                    { controller := none, webview := none, event := false }).2.2.2
              ++ [Step.call Api.CoUninitialize_, Step.destroy_Handler,
                  Step.call Api.CloseHandle])) := by
  have hp : (Supported sys).2 = [Step.call Api.GetAvailableCoreWebView2BrowserVersionString] :=
    rfl
  by_cases hs : (Supported sys).1 = true
  swap
  · left
    have hs' : (Supported sys).1 = false := by simpa using hs
    exact ⟨hs', by simp [CreateInstance, hs', hp]⟩
  right
  by_cases hc : sys.CreateCoreWebView2EnvironmentWithOptions = S_OK
  swap
  · left
    exact ⟨hs, (if (ToWide config.userDataPath).isEmpty then none
        else some (c_str (ToWide config.userDataPath))),
      by simp [CreateInstance, hs, hc, hp]⟩
  right
  by_cases hb : (CoWaitForMultipleHandles sys.deliveries (Handler.construct config (some ready))
      { controller := none, webview := none, event := false }).1 = true
  swap
  · left
    exact ⟨hs, (if (ToWide config.userDataPath).isEmpty then none
        else some (c_str (ToWide config.userDataPath))),
      by simp [CreateInstance, hs, hc, hb, hp]⟩
  right
  cases e1 : (CoWaitForMultipleHandles sys.deliveries (Handler.construct config (some ready))
      { controller := none, webview := none, event := false }).2.2.1.controller with
  | none =>
    right
    exact ⟨hs, (if (ToWide config.userDataPath).isEmpty then none
        else some (c_str (ToWide config.userDataPath))),
      by simp [CreateInstance, hs, hc, hb, hp, e1]⟩
  | some c =>
    cases e2 : (CoWaitForMultipleHandles sys.deliveries (Handler.construct config (some ready))
        { controller := none, webview := none, event := false }).2.2.1.webview with
    | none =>
      right
      exact ⟨hs, (if (ToWide config.userDataPath).isEmpty then none
        else some (c_str (ToWide config.userDataPath))),
        by simp [CreateInstance, hs, hc, hb, hp, e1, e2]⟩
    | some w =>
      left
      exact ⟨hs, (if (ToWide config.userDataPath).isEmpty then none
        else some (c_str (ToWide config.userDataPath))),
        (Instance.construct config.window c w
          (CoWaitForMultipleHandles sys.deliveries (Handler.construct config (some ready))
            { controller := none, webview := none, event := false }).2.1).1,
        c_str (ToWide "window.external=\x7binvoke:s=>window.chrome.webview.postMessage(s)\x7d"),
        by simp [CreateInstance, hs, hc, hb, hp, e1, e2, Instance.construct, Instance.init]⟩

end EdgeChromium

/-- C6 (the code at the failing input): on a bootstrap in which every stage
succeeds the handler is registered for message-received, permission-requested
and navigation-starting events only; and on no bootstrap at all does the backend
call `add_NavigationCompleted`, so no navigation-completed event reaches the
handler. -/
theorem navigation_completed_never_registered :
    ((EdgeChromium.CreateInstance EdgeChromium.sampleSystem sampleConfig).1.hasInstance = true ∧
      EdgeChromium.registrations
          (EdgeChromium.CreateInstance EdgeChromium.sampleSystem sampleConfig).2
        = [Step.call Api.add_WebMessageReceived, Step.call Api.add_PermissionRequested,
           Step.call Api.add_NavigationStarting]) ∧
    ∀ (sys : EdgeChromium.System) (config : Config),
      Step.call Api.add_NavigationCompleted ∉ (EdgeChromium.CreateInstance sys config).2 := by
  refine ⟨by decide, ?_⟩
  intro sys config
  have hw := (EdgeChromium.wait_counts sys config).2.2
  rcases EdgeChromium.CreateInstance_paths sys config with
    ⟨-, e⟩ | ⟨-, f, e⟩ | ⟨-, f, e⟩ | ⟨-, f, i, js, e⟩ | ⟨-, f, e⟩ <;>
  · rw [e]
    simp [hw]

/-- C10 (the claim fails): the Edge HTML `CreateInstance` returns no instance
after `init_apartment` without releasing the apartment. -/
theorem runtime_release_counterexample :
    (EdgeHtml.CreateInstance EdgeHtml.sampleSystemNoResults sampleConfig).1.noInstance = true ∧
    List.countP Step.initsRuntime
        (EdgeHtml.CreateInstance EdgeHtml.sampleSystemNoResults sampleConfig).2 = 1 ∧
    List.countP Step.releasesRuntime
        (EdgeHtml.CreateInstance EdgeHtml.sampleSystemNoResults sampleConfig).2 = 0 := by
  decide

/-- C10 (amended): on every no-instance return of the Edge Chromium
`CreateInstance` the runtime context was released as often as it was
initialised (once each on a failure path taken after `CoInitializeEx`, not at
all before it); the Edge HTML `CreateInstance` never releases the apartment, so
its no-instance return on a supported host has one initialisation and no
release. -/
theorem runtime_released_on_failure
    (sys : EdgeChromium.System) (config : Config)
    (hn : (EdgeChromium.CreateInstance sys config).1.noInstance = true)
    (sys' : EdgeHtml.System) (config' : Config)
    (hs' : (EdgeHtml.Supported sys').1 = true)
    (hn' : (EdgeHtml.CreateInstance sys' config').1.noInstance = true) :
    (List.countP Step.initsRuntime (EdgeChromium.CreateInstance sys config).2
        = List.countP Step.releasesRuntime (EdgeChromium.CreateInstance sys config).2 ∧
      List.countP Step.releasesRuntime (EdgeChromium.CreateInstance sys config).2
        = if (EdgeChromium.Supported sys).1 then 1 else 0) ∧
    (List.countP Step.initsRuntime (EdgeHtml.CreateInstance sys' config').2 = 1 ∧
      List.countP Step.releasesRuntime (EdgeHtml.CreateInstance sys' config').2 = 0) := by
  constructor
  · obtain ⟨hi, hr, -⟩ := EdgeChromium.wait_counts sys config
    rcases EdgeChromium.CreateInstance_paths sys config with
      ⟨hs, e⟩ | ⟨hs, f, e⟩ | ⟨hs, f, e⟩ | ⟨hs, f, i, js, e⟩ | ⟨hs, f, e⟩
    · rw [e]
      simp [hs, List.countP_cons, Step.initsRuntime, Step.releasesRuntime]
    · rw [e]
      simp [hs, List.countP_cons, Step.initsRuntime, Step.releasesRuntime]
    · rw [e] at hn
      simp [Outcome.noInstance] at hn
    · rw [e] at hn
      simp [Outcome.noInstance] at hn
    · rw [e]
      simp [hs, List.countP_cons, List.countP_append, hi, hr, Step.initsRuntime,
        Step.releasesRuntime]
  · have hrp : sys'.resolved = true ∧ sys'.WebViewControlProcess = true := by
      cases hr : sys'.resolved <;> simp [EdgeHtml.Supported, hr] at hs'
      exact ⟨rfl, hs'⟩
    obtain ⟨hr, hp⟩ := hrp
    cases hg : sys'.GetResults with
    | some w =>
      by_cases hb : sys'.Status = EdgeHtml.AsyncStatus.Started ∧ sys'.completionDelivered = false
      · simp [EdgeHtml.CreateInstance, EdgeHtml.Supported, hr, hp, hb, Outcome.noInstance] at hn'
      · simp [EdgeHtml.CreateInstance, EdgeHtml.Supported, hr, hp, hb, hg, Outcome.noInstance]
          at hn'
    | none =>
      by_cases hst : sys'.Status = EdgeHtml.AsyncStatus.Started
      · cases hd : sys'.completionDelivered
        · simp [EdgeHtml.CreateInstance, EdgeHtml.Supported, hr, hp, hst, hd, Outcome.noInstance]
            at hn'
        · simp [EdgeHtml.CreateInstance, EdgeHtml.Supported, hr, hp, hst, hd, hg,
            List.countP_cons, Step.initsRuntime, Step.releasesRuntime]
      · simp [EdgeHtml.CreateInstance, EdgeHtml.Supported, hr, hp, hst, hg,
          List.countP_cons, Step.initsRuntime, Step.releasesRuntime]

theorem runtime_released_on_failure_witness :
    (EdgeChromium.CreateInstance EdgeChromium.sampleSystemNoController sampleConfig).1.noInstance
      = true ∧
    (EdgeHtml.Supported EdgeHtml.sampleSystemNoResults).1 = true ∧
    (EdgeHtml.CreateInstance EdgeHtml.sampleSystemNoResults sampleConfig).1.noInstance = true ∧
    ((List.countP Step.initsRuntime
          (EdgeChromium.CreateInstance EdgeChromium.sampleSystemNoController sampleConfig).2
        = List.countP Step.releasesRuntime
          (EdgeChromium.CreateInstance EdgeChromium.sampleSystemNoController sampleConfig).2 ∧
      List.countP Step.releasesRuntime
          (EdgeChromium.CreateInstance EdgeChromium.sampleSystemNoController sampleConfig).2
        = if (EdgeChromium.Supported EdgeChromium.sampleSystemNoController).1 then 1 else 0) ∧
    (List.countP Step.initsRuntime
          (EdgeHtml.CreateInstance EdgeHtml.sampleSystemNoResults sampleConfig).2 = 1 ∧
      List.countP Step.releasesRuntime
          (EdgeHtml.CreateInstance EdgeHtml.sampleSystemNoResults sampleConfig).2 = 0)) :=
  ⟨by decide, by decide, by decide,
    runtime_released_on_failure EdgeChromium.sampleSystemNoController sampleConfig (by decide)
      EdgeHtml.sampleSystemNoResults sampleConfig (by decide) (by decide)⟩

/-! ## The capability probe -/

/-- C4: for each backend, when `Supported()` is false `CreateInstance` returns no
instance, and the only steps it has taken are those of the probe itself: no
initialisation of the runtime context, no release, and no step that creates a
native resource. -/
theorem unsupported_returns_before_any_creation (b : Backend) (config : Config)
    (h : (b.Supported).1 = false) :
    (b.CreateInstance config).1 = Outcome.returned none ∧
    (b.CreateInstance config).2 = (b.Supported).2 ∧
    ∀ s ∈ (b.CreateInstance config).2,
      s.initsRuntime = false ∧ s.releasesRuntime = false ∧ s.creates = false := by
  cases b with
  | linux => simp [Backend.CreateInstance, Backend.Supported, CreateInstance, Supported]
  | edgeChromium sys =>
    have hs : (EdgeChromium.Supported sys).1 = false := h
    simp [Backend.CreateInstance, Backend.Supported,
      EdgeChromium.CreateInstance_unsupported sys config hs, Outcome.map]
    simp [EdgeChromium.Supported, Step.initsRuntime, Step.releasesRuntime, Step.creates]
  | edgeHtml sys =>
    have hs : (EdgeHtml.Supported sys).1 = false := h
    have e : EdgeHtml.CreateInstance sys config
        = (Outcome.returned none, (EdgeHtml.Supported sys).2) := by
      simp [EdgeHtml.CreateInstance, hs]
    simp only [Backend.CreateInstance, Backend.Supported, e, Outcome.map, Option.map_none',
      true_and]
    cases hr : sys.resolved with
    | false => simp [EdgeHtml.Supported, hr]
    | true =>
      have hp : sys.WebViewControlProcess = false := by
        simpa [EdgeHtml.Supported, hr] using hs
      simp [EdgeHtml.Supported, hr, hp, Step.initsRuntime, Step.releasesRuntime, Step.creates]

theorem unsupported_returns_before_any_creation_witness :
    ((Backend.edgeChromium EdgeChromium.sampleSystemUnsupported).Supported).1 = false ∧
    ((Backend.edgeChromium EdgeChromium.sampleSystemUnsupported).CreateInstance sampleConfig).1
      = Outcome.returned none ∧
    ((Backend.edgeChromium EdgeChromium.sampleSystemUnsupported).CreateInstance sampleConfig).2
      = [Step.call Api.GetAvailableCoreWebView2BrowserVersionString] ∧
    ((Backend.edgeHtml EdgeHtml.sampleSystemUnsupported).Supported).1 = false ∧
    ((Backend.edgeHtml EdgeHtml.sampleSystemUnsupported).CreateInstance sampleConfig).1
      = Outcome.returned none ∧
    ((Backend.edgeHtml EdgeHtml.sampleSystemUnsupported).CreateInstance sampleConfig).2 = [] ∧
    (Backend.linux.Supported).1 = false ∧
    (Backend.linux.CreateInstance sampleConfig).1 = Outcome.returned none ∧
    (Backend.linux.CreateInstance sampleConfig).2 = [] :=
  ⟨by decide,
    (unsupported_returns_before_any_creation
      (Backend.edgeChromium EdgeChromium.sampleSystemUnsupported) sampleConfig (by decide)).1,
    (unsupported_returns_before_any_creation
      (Backend.edgeChromium EdgeChromium.sampleSystemUnsupported) sampleConfig (by decide)).2.1,
    by decide,
    (unsupported_returns_before_any_creation
      (Backend.edgeHtml EdgeHtml.sampleSystemUnsupported) sampleConfig (by decide)).1,
    (unsupported_returns_before_any_creation
      (Backend.edgeHtml EdgeHtml.sampleSystemUnsupported) sampleConfig (by decide)).2.1,
    by decide,
    (unsupported_returns_before_any_creation Backend.linux sampleConfig (by decide)).1,
    (unsupported_returns_before_any_creation Backend.linux sampleConfig (by decide)).2.1⟩

/-! ## Script registration order -/

theorem utf16Units_ne_zero (c : Char) (h : c.toNat ≠ 0) :
    ∀ u ∈ utf16Units c, decide (u ≠ 0) = true := by
  intro u hu
  unfold utf16Units at hu
  split at hu
  · rw [List.mem_singleton] at hu
    subst hu
    simpa using h
  · rw [List.mem_cons, List.mem_singleton] at hu
    rw [decide_eq_true_eq]
    rcases hu with hu | hu <;> omega

theorem utf16Units_zero (c : Char) (h : c.toNat = 0) : utf16Units c = [0] := by
  simp [utf16Units, h]

theorem takeWhile_utf16 (l : List Char) :
    (l.flatMap utf16Units).takeWhile (fun u => decide (u ≠ 0))
      = (l.takeWhile fun c => decide (c.toNat ≠ 0)).flatMap utf16Units := by
  induction l with
  | nil => rfl
  | cons c l ih =>
    by_cases h : c.toNat = 0
    · simp [List.flatMap_cons, utf16Units_zero c h, List.takeWhile_cons, h]
    · rw [List.flatMap_cons, List.takeWhile_append_of_pos (utf16Units_ne_zero c h), ih]
      simp [List.takeWhile_cons, h, List.flatMap_cons]

/-- What the engine reads of a converted script: the script before its first NUL. -/
theorem c_str_ToWide (js : String) : c_str (ToWide js) = ToWide (beforeNul js) := by
  exact takeWhile_utf16 js.toList

theorem c_str_ToWide_plain (js : String) (h : ∀ c ∈ js.toList, c.toNat ≠ 0) :
    c_str (ToWide js) = ToWide js := by
  rw [c_str_ToWide]
  have : (js.toList.takeWhile fun c => decide (c.toNat ≠ 0)) = js.toList := by
    rw [List.takeWhile_eq_self_iff]
    intro c hc
    simpa using h c hc
  unfold beforeNul
  rw [this]
  rfl

namespace EdgeHtml

theorem init_foldl (scripts : List String) :
    ∀ i : Instance,
      (scripts.foldl Instance.init i)._initScript = i._initScript ++ wrappers scripts ∧
      (scripts.foldl Instance.init i).navigationStartHandler = i.navigationStartHandler := by
  induction scripts with
  | nil =>
    intro i
    simp [wrappers]
  | cons js rest ih =>
    intro i
    obtain ⟨h1, h2⟩ := ih (i.init js)
    simp only [List.foldl_cons, h1, h2, wrappers]
    simp [Instance.init, String.append_assoc]

end EdgeHtml

/-- C7 (the claim fails): in Edge Chromium `init` hands `wide.c_str()` to the
engine, so of the script `a`, NUL, `b` only `a` is forwarded, not the script
itself. -/
theorem init_forwarding_counterexample :
    ToWide sampleScriptWithNul = [97, 0, 98] ∧
    sampleInstance.init sampleScriptWithNul
      = [Step.call (Api.AddScriptToExecuteOnDocumentCreated [97])] ∧
    sampleInstance.init sampleScriptWithNul
      ≠ [Step.call (Api.AddScriptToExecuteOnDocumentCreated (ToWide sampleScriptWithNul))] := by
  decide

/-- C7 (amended): the order of `init` calls is preserved.  In Edge HTML, after
the scripts `s1..sn` were passed to `init` in that order on a constructed
instance, every navigation start injects exactly one script: the wrapper of the
constructor's bridge shim followed by the wrappers `"(function(){" + si + "})();"`
of `s1..sn` in registration order.  In Edge Chromium each `init` call makes one
`AddScriptToExecuteOnDocumentCreated` call, in the order of the `init` calls,
with its own script up to the first NUL character: exactly its own script when
the script has no NUL character. -/
theorem init_order_preserved
    (config : Config) (webview : EdgeHtml.WebViewControl) (scripts : List String)
    (args : EdgeHtml.WebViewControlNavigationStartingEventArgs)
    (i : EdgeChromium.Instance) (plain : List String)
    (hPlain : ∀ js ∈ plain, ∀ c ∈ js.toList, c.toNat ≠ 0) :
    (∃ before,
      (scripts.foldl EdgeHtml.Instance.init
          (EdgeHtml.Instance.construct config webview).1).NavigationStarting args
        = Except.ok (before ++
            [Step.call (Api.AddInitializeScript (EdgeHtml.to_hstring
              ("(function()\x7b" ++ "window.external.invoke = s => window.external.notify(s)"
                ++ "\x7d)();" ++ EdgeHtml.wrappers scripts)))]) ∧
      ∀ script, Step.call (Api.AddInitializeScript script) ∉ before) ∧
    plain.flatMap i.init
      = plain.map (fun js => Step.call (Api.AddScriptToExecuteOnDocumentCreated (ToWide js))) ∧
    scripts.flatMap i.init
      = scripts.map (fun js =>
          Step.call (Api.AddScriptToExecuteOnDocumentCreated (ToWide (beforeNul js)))) := by
  refine ⟨?_, ?_, ?_⟩
  · obtain ⟨h1, h2⟩ := EdgeHtml.init_foldl scripts (EdgeHtml.Instance.construct config webview).1
    have h0 : (EdgeHtml.Instance.construct config webview).1._initScript
        = "(function()\x7b" ++ "window.external.invoke = s => window.external.notify(s)"
            ++ "\x7d)();" := by
      simp [EdgeHtml.Instance.construct, EdgeHtml.Instance.init]
    unfold EdgeHtml.Instance.NavigationStarting
    rw [h1, h2, h0]
    cases hf : (EdgeHtml.Instance.construct config webview).1.navigationStartHandler with
    | none => exact ⟨[], by simp [pure, Except.pure]⟩
    | some f =>
      cases hv : f (EdgeHtml.to_string args.AbsoluteUri)
      · exact ⟨[Step.invoke (Callback.navigationStartHandler
            (EdgeHtml.to_string args.AbsoluteUri)), Step.call (Api.Cancel true)],
          by simp [invokeFunction, hv, pure, Except.pure, bind, Except.bind]⟩
      · exact ⟨[Step.invoke (Callback.navigationStartHandler
            (EdgeHtml.to_string args.AbsoluteUri))],
          by simp [invokeFunction, hv, pure, Except.pure, bind, Except.bind]⟩
  · induction plain with
    | nil => rfl
    | cons js rest ih =>
      have hjs := c_str_ToWide_plain js (hPlain js (List.mem_cons_self js rest))
      have hrest := ih fun js' hm => hPlain js' (List.mem_cons_of_mem js hm)
      simp [List.flatMap_cons, EdgeChromium.Instance.init, hjs, hrest]
  · induction scripts with
    | nil => rfl
    | cons js rest ih =>
      simp [List.flatMap_cons, EdgeChromium.Instance.init, c_str_ToWide js, ih]

theorem init_order_preserved_witness :
    (∀ js ∈ ["A", "B"], ∀ c ∈ js.toList, c.toNat ≠ 0) ∧
    ((∃ before,
      (["A", "B"].foldl EdgeHtml.Instance.init
          (EdgeHtml.Instance.construct sampleConfig { id := 5 }).1).NavigationStarting
            { AbsoluteUri := ToWide "app://ok" }
        = Except.ok (before ++
            [Step.call (Api.AddInitializeScript (EdgeHtml.to_hstring
              ("(function()\x7b" ++ "window.external.invoke = s => window.external.notify(s)"
                ++ "\x7d)();" ++ EdgeHtml.wrappers ["A", "B"])))]) ∧
      ∀ script, Step.call (Api.AddInitializeScript script) ∉ before) ∧
    ["A", "B"].flatMap sampleInstance.init
      = ["A", "B"].map (fun js =>
          Step.call (Api.AddScriptToExecuteOnDocumentCreated (ToWide js))) ∧
    ["A", "B"].flatMap sampleInstance.init
      = ["A", "B"].map (fun js =>
          Step.call (Api.AddScriptToExecuteOnDocumentCreated (ToWide (beforeNul js))))) :=
  ⟨by decide,
    init_order_preserved sampleConfig { id := 5 } ["A", "B"] { AbsoluteUri := ToWide "app://ok" }
      sampleInstance ["A", "B"] (by decide)⟩

end Webview
